import Mathlib

/-!
Shallow embedding of the wind-globe core (interactiveWind.js / togglesPanel.js
and the shared utils) together with proofs about its sampling, normalization,
densification, streamline, glyph-field, picking and passport-event logic.

Modelling conventions:
* JS numbers are modelled by `ℚ` where the code only adds, multiplies,
  divides and compares, and by `ℝ` where `Math.hypot`, `Math.acos`,
  `Math.sin`/`Math.cos` or `Math.round` of a real quantity occur.
* A JS value that can be `NaN`, `null`, `Infinity` or `undefined` where the
  code tests `Number.isFinite` is modelled as `Option ℚ`, `none` standing for
  every non-finite sentinel (the code never distinguishes them).
* Fallible code paths (`return null`, thrown errors) are modelled with
  `Option` / `Except`.
-/

namespace WindGlobe

/-- JS `clamp(x, a, b) = Math.max(a, Math.min(b, x))` (interactiveWind.js,
togglesPanel.js define the same helper). -/
def clamp {α : Type} [LinearOrder α] (x a b : α) : α :=
  max a (min b x)

/-- JS `clamp01(x) = Math.max(0, Math.min(1, x))`. -/
def clamp01 {α : Type} [LinearOrder α] [Zero α] [One α] (x : α) : α :=
  max 0 (min 1 x)

/-- JS `lerp(a, b, t) = a + (b - a) * t`. -/
def lerp {α : Type} [Ring α] (a b t : α) : α :=
  a + (b - a) * t

/-- Indexing `xs[i]` into a JS array whose entries may themselves be
non-finite: out-of-range reads give `undefined`, i.e. `none`. -/
def idx? {α : Type} (xs : List (Option α)) (i : ℕ) : Option α :=
  (xs.get? i).join

/-- `U[j]?.[i]` — optional-chained 2D lookup; a missing row, a missing entry
and a non-finite entry all read as non-finite. -/
def idx2? {α : Type} (m : List (List (Option α))) (j i : ℕ) : Option α :=
  ((m.get? j).map (fun row => idx? row i)).join

/-- The JS `while (i < n && pred i) i++` scan, with explicit fuel.  Fuel `n`
is enough for every start index, since the guard keeps `i` below `n`. -/
def scanFrom (pred : ℕ → Bool) : ℕ → ℕ → ℕ
  | 0, i => i
  | fuel + 1, i => if pred i then scanFrom pred fuel (i + 1) else i

/-- A wind-field snapshot: `data.meta.grid.lat`, `data.meta.grid.lon`,
`data.u`, `data.v` of the grid JSON.  Entry `none` models a `null`/`NaN`
(missing) sample. -/
structure WindData where
  lats : List ℚ
  lons : List ℚ
  U : List (List (Option ℚ))
  V : List (List (Option ℚ))

/-- The cell-corner indices `(i0, i1, j0, j1)` located by `sampleBilinear`:
linear scans honoring grid direction, then clamping into valid range. -/
def cellOf (lats lons : List ℚ) (lat lon : ℚ) : ℕ × ℕ × ℕ × ℕ :=
  let nLat := lats.length
  let nLon := lons.length
  let lon0 := lons.getD 0 0
  let lonN := lons.getD (nLon - 1) 0
  let gridIs360 := 0 ≤ lon0 ∧ 180 < lonN
  let qLon0 := lon
  let qLon1 := if gridIs360 ∧ qLon0 < 0 then qLon0 + 360 else qLon0
  let minLon := min lon0 lonN
  let maxLon := max lon0 lonN
  let qLon := clamp qLon1 minLon maxLon
  let latInc := lats.getD 0 0 < lats.getD 1 0
  let minLat := if latInc then lats.getD 0 0 else lats.getD (nLat - 1) 0
  let maxLat := if latInc then lats.getD (nLat - 1) 0 else lats.getD 0 0
  let qLat := clamp lat minLat maxLat
  let i1 := clamp (scanFrom (fun i => decide (i < nLon ∧ lons.getD i 0 < qLon)) nLon 1) 1 (nLon - 1)
  let j1 :=
    if latInc then
      clamp (scanFrom (fun j => decide (j < nLat ∧ lats.getD j 0 < qLat)) nLat 1) 1 (nLat - 1)
    else
      clamp (scanFrom (fun j => decide (j < nLat ∧ qLat < lats.getD j 0)) nLat 1) 1 (nLat - 1)
  (i1 - 1, i1, j1 - 1, j1)

/-- The eight corner reads `[u00, u10, u01, u11, v00, v10, v01, v11]` that
`sampleBilinear` feeds to its `Number.isFinite` check. -/
def corners (d : WindData) (lat lon : ℚ) : List (Option ℚ) :=
  let c := cellOf d.lats d.lons lat lon
  let i0 := c.1
  let i1 := c.2.1
  let j0 := c.2.2.1
  let j1 := c.2.2.2
  [idx2? d.U j0 i0, idx2? d.U j0 i1, idx2? d.U j1 i0, idx2? d.U j1 i1,
   idx2? d.V j0 i0, idx2? d.V j0 i1, idx2? d.V j1 i0, idx2? d.V j1 i1]

/-- `sampleBilinear(lat, lon, lats, lons, U, V)` — bilinear interpolation on
a regular lat/lon grid, returning `none` for grids with fewer than two rows
or columns and whenever any of the four enclosing corners is non-finite. -/
def sampleBilinear (d : WindData) (lat lon : ℚ) : Option (ℚ × ℚ) :=
  let nLat := d.lats.length
  let nLon := d.lons.length
  if nLat < 2 ∨ nLon < 2 then none
  else
    let lon0 := d.lons.getD 0 0
    let lonN := d.lons.getD (nLon - 1) 0
    let gridIs360 := 0 ≤ lon0 ∧ 180 < lonN
    let qLon1 := if gridIs360 ∧ lon < 0 then lon + 360 else lon
    let qLon := clamp qLon1 (min lon0 lonN) (max lon0 lonN)
    let latInc := d.lats.getD 0 0 < d.lats.getD 1 0
    let minLat := if latInc then d.lats.getD 0 0 else d.lats.getD (nLat - 1) 0
    let maxLat := if latInc then d.lats.getD (nLat - 1) 0 else d.lats.getD 0 0
    let qLat := clamp lat minLat maxLat
    let c := cellOf d.lats d.lons lat lon
    let i0 := c.1
    let i1 := c.2.1
    let j0 := c.2.2.1
    let j1 := c.2.2.2
    let lonA := d.lons.getD i0 0
    let lonB := d.lons.getD i1 0
    let latA := d.lats.getD j0 0
    let latB := d.lats.getD j1 0
    let tx := if lonB = lonA then 0 else (qLon - lonA) / (lonB - lonA)
    let ty := if latB = latA then 0 else (qLat - latA) / (latB - latA)
    let cs := corners d lat lon
    -- `if (![u00, ...].every(Number.isFinite)) return null;` — the corner
    -- values are read only after this guard, so the `getD` defaults below
    -- can never be observed.
    if cs.all Option.isSome then
      let u00 := (cs.getD 0 none).getD 0
      let u10 := (cs.getD 1 none).getD 0
      let u01 := (cs.getD 2 none).getD 0
      let u11 := (cs.getD 3 none).getD 0
      let v00 := (cs.getD 4 none).getD 0
      let v10 := (cs.getD 5 none).getD 0
      let v01 := (cs.getD 6 none).getD 0
      let v11 := (cs.getD 7 none).getD 0
      let u0 := lerp u00 u10 tx
      let u1 := lerp u01 u11 tx
      let v0 := lerp v00 v10 tx
      let v1 := lerp v01 v11 tx
      some (lerp u0 u1 ty, lerp v0 v1 ty)
    else none

/-- C1: whenever any of the eight corner `u`/`v` reads of the enclosing grid
cell is non-finite (`none`), `sampleBilinear` returns missing (`none`) and
never a numeric `{u, v}` pair. -/
theorem sampleBilinear_missing_corner (d : WindData) (lat lon : ℚ)
    (h : none ∈ corners d lat lon) :
    sampleBilinear d lat lon = none := by
  unfold sampleBilinear
  by_cases hsz : d.lats.length < 2 ∨ d.lons.length < 2
  · simp [hsz]
  · have hall : ¬ ((corners d lat lon).all Option.isSome = true) := by
      simp only [List.all_eq_true]
      intro hforall
      have := hforall none h
      simp at this
    simp only [hsz, if_false]
    simp [hall]

/-- Concrete witness for C1: a 2×2 grid whose `u[0][0]` is missing. -/
def missingCornerGrid : WindData :=
  { lats := [0, 10]
    lons := [0, 10]
    U := [[none, some 1], [some 1, some 1]]
    V := [[some 0, some 0], [some 0, some 0]] }

/-- Witness for C1: the hypothesis is satisfiable and the sampler really
answers missing at such a query. -/
theorem sampleBilinear_missing_corner_witness :
    none ∈ corners missingCornerGrid 0 0 ∧
      sampleBilinear missingCornerGrid 0 0 = none :=
  ⟨by decide, sampleBilinear_missing_corner missingCornerGrid 0 0 (by decide)⟩

/-- `percentile(arr, p)`: `NaN` (`none`) on the empty array, else sort an
ascending copy and pick index `min(len - 1, max(0, floor(p/100 * len)))` —
the nearest-rank method.  Generic in the element order, as the JS function
is; used at `ℚ` for raw grid speeds and at `ℝ` for `Math.hypot` speeds. -/
def percentile {α : Type} [LinearOrder α] (arr : List α) (p : ℚ) : Option α :=
  if arr.length = 0 then none
  else
    let a := List.insertionSort (fun x y => x ≤ y) arr
    let i : ℤ := min ((a.length : ℤ) - 1) (max 0 ⌊p / 100 * (a.length : ℚ)⌋)
    a.get? i.toNat

lemma get?_length_sub_one {α : Type} : ∀ l : List α, l.get? (l.length - 1) = l.getLast?
  | [] => rfl
  | [_] => rfl
  | a :: b :: t => by
    have ih := get?_length_sub_one (b :: t)
    simp only [List.length_cons] at ih ⊢
    simpa [List.get?, List.getLast?] using ih

lemma sorted_head_le {α : Type} [LinearOrder α] {b : α} {t : List α}
    (hs : List.Sorted (· ≤ ·) (b :: t)) : ∀ x ∈ b :: t, b ≤ x := by
  intro x hx
  rcases List.mem_cons.1 hx with rfl | hx
  · exact le_refl x
  · exact List.rel_of_sorted_cons hs x hx

lemma sorted_le_getLast {α : Type} [LinearOrder α] :
    ∀ {l : List α} (h : l ≠ []), List.Sorted (· ≤ ·) l → ∀ x ∈ l, x ≤ l.getLast h := by
  intro l
  induction l with
  | nil => intro h; exact absurd rfl h
  | cons a t ih =>
    intro h hs x hx
    cases t with
    | nil =>
      simp only [List.mem_singleton] at hx
      subst hx
      simp [List.getLast]
    | cons b t' =>
      rw [List.getLast_cons (by simp)]
      rcases List.mem_cons.1 hx with rfl | hx'
      · exact List.rel_of_sorted_cons hs _ (List.getLast_mem (by simp))
      · exact ih (by simp) hs.of_cons x hx'

/-- C9: on a non-empty array, `percentile(arr, 0)` is the minimum element
and `percentile(arr, 100)` is the maximum element (the selected sorted
index being clamped into `[0, n-1]`). -/
theorem percentile_zero_hundred {α : Type} [LinearOrder α]
    (arr : List α) (h : arr ≠ []) :
    ∃ mn mx, percentile arr 0 = some mn ∧ percentile arr 100 = some mx ∧
      mn ∈ arr ∧ mx ∈ arr ∧ ∀ x ∈ arr, mn ≤ x ∧ x ≤ mx := by
  have hlen0 : arr.length ≠ 0 := by simpa [List.length_eq_zero] using h
  have hperm : List.Perm (List.insertionSort (fun x y => x ≤ y) arr) arr :=
    List.perm_insertionSort _ arr
  have hs : List.Sorted (· ≤ ·) (List.insertionSort (fun x y => x ≤ y) arr) :=
    List.sorted_insertionSort _ arr
  set a := List.insertionSort (fun x y => x ≤ y) arr with ha
  have hlen : a.length = arr.length := hperm.length_eq
  have hane : a ≠ [] := by
    intro h0
    rw [h0] at hlen
    exact hlen0 hlen.symm
  obtain ⟨b, t, hbt⟩ : ∃ b t, a = b :: t := by
    cases hA : a with
    | nil => exact absurd hA hane
    | cons b t => exact ⟨b, t, rfl⟩
  have hn1 : 1 ≤ a.length := by
    rw [hbt]; simp
  have hi0 : (min ((a.length : ℤ) - 1) (max 0 ⌊(0 : ℚ) / 100 * (a.length : ℚ)⌋)).toNat
      = 0 := by
    have : ⌊(0 : ℚ) / 100 * (a.length : ℚ)⌋ = 0 := by norm_num
    rw [this]
    omega
  have hi100 : (min ((a.length : ℤ) - 1) (max 0 ⌊(100 : ℚ) / 100 * (a.length : ℚ)⌋)).toNat
      = a.length - 1 := by
    have : ⌊(100 : ℚ) / 100 * (a.length : ℚ)⌋ = (a.length : ℤ) := by
      rw [show (100 : ℚ) / 100 * (a.length : ℚ) = ((a.length : ℤ) : ℚ) by push_cast; ring]
      exact Int.floor_intCast _
    rw [this]
    omega
  refine ⟨b, a.getLast hane, ?_, ?_, ?_, ?_, ?_⟩
  · simp only [percentile, hlen0, if_false, ← ha]
    rw [hi0, hbt]
    rfl
  · simp only [percentile, hlen0, if_false, ← ha]
    rw [hi100, get?_length_sub_one a, List.getLast?_eq_getLast_of_ne_nil hane]
  · exact hperm.mem_iff.1 (by rw [hbt]; exact List.mem_cons_self b t)
  · exact hperm.mem_iff.1 (List.getLast_mem hane)
  · intro x hx
    have hxa : x ∈ a := hperm.mem_iff.2 hx
    constructor
    · exact sorted_head_le (hbt ▸ hs) x (hbt ▸ hxa)
    · exact sorted_le_getLast hane hs x hxa

/-- Witness for C9 at a concrete array. -/
theorem percentile_zero_hundred_witness :
    ([3, 1, 2] : List ℚ) ≠ [] ∧
      (∃ mn mx, percentile ([3, 1, 2] : List ℚ) 0 = some mn ∧
        percentile ([3, 1, 2] : List ℚ) 100 = some mx ∧
        mn ∈ ([3, 1, 2] : List ℚ) ∧ mx ∈ ([3, 1, 2] : List ℚ) ∧
        ∀ x ∈ ([3, 1, 2] : List ℚ), mn ≤ x ∧ x ≤ mx) :=
  ⟨by decide, percentile_zero_hundred [3, 1, 2] (by decide)⟩

/-- A minimal JS heap for the mutation claim: array objects (identified by a
natural number) and their current contents. -/
def percentileProc (σ : ℕ → List ℚ) (x : ℕ) (p : ℚ) (fresh : ℕ) :
    Option ℚ × (ℕ → List ℚ) :=
  if (σ x).length = 0 then (none, σ)
  else
    -- `const a = [...arr]` allocates a fresh array holding a copy of `arr`,
    let σ1 := Function.update σ fresh (σ x)
    -- and `.sort((x, y) => x - y)` then sorts that fresh array in place.
    let σ2 := Function.update σ1 fresh
      (List.insertionSort (fun u v => u ≤ v) (σ1 fresh))
    let a := σ2 fresh
    let i : ℤ := min ((a.length : ℤ) - 1) (max 0 ⌊p / 100 * (a.length : ℚ)⌋)
    (a.get? i.toNat, σ2)

/-- C10: `percentile` never modifies its input array — after the call the
caller's array is unchanged (sorting happened on the fresh copy), and the
returned value is the pure `percentile` of the original contents. -/
theorem percentile_preserves_input (σ : ℕ → List ℚ) (x fresh : ℕ) (p : ℚ)
    (h : fresh ≠ x) :
    (percentileProc σ x p fresh).2 x = σ x ∧
      (percentileProc σ x p fresh).1 = percentile (σ x) p := by
  unfold percentileProc percentile
  by_cases h0 : (σ x).length = 0
  · simp [h0]
  · constructor
    · simp [h0, Function.update_apply, Ne.symm h]
    · simp [h0, Function.update_apply]

/-- Witness for C10 at a concrete heap: array 0 holds `[2, 1]`, the spread
copy lives at fresh id 1. -/
theorem percentile_preserves_input_witness :
    (1 : ℕ) ≠ 0 ∧
      ((percentileProc (fun n => if n = 0 then [2, 1] else []) 0 50 1).2 0 =
          (fun n => if n = 0 then ([2, 1] : List ℚ) else []) 0 ∧
        (percentileProc (fun n => if n = 0 then [2, 1] else []) 0 50 1).1 =
          percentile ([2, 1] : List ℚ) 50) :=
  ⟨by decide, percentile_preserves_input _ 0 1 50 (by decide)⟩

/-- `Math.hypot(u, v)` on two finite grid values. -/
noncomputable def hypot (u v : ℚ) : ℝ :=
  Real.sqrt ((u : ℝ) ^ 2 + (v : ℝ) ^ 2)

/-- JS `x || 1` on a number that is not `NaN`: `0` is the only falsy value. -/
def jsOr1 {α : Type} [Zero α] [One α] [DecidableEq α] (x : α) : α :=
  if x = 0 then 1 else x

/-- `const t = clamp01((speed - p10) / denom)` with
`const denom = p90 - p10 || 1` — the percentile normalization shared by the
glyph build pass and the streamline color pass. -/
noncomputable def normalizedSpeed (speed low high : ℝ) : ℝ :=
  clamp01 ((speed - low) / jsOr1 (high - low))

lemma percentile_isSome {α : Type} [LinearOrder α] (arr : List α) (h : arr ≠ [])
    (p : ℚ) : ∃ v, percentile arr p = some v := by
  have hlen0 : arr.length ≠ 0 := by simpa [List.length_eq_zero] using h
  have hlen : (List.insertionSort (fun x y => x ≤ y) arr).length = arr.length :=
    (List.perm_insertionSort _ arr).length_eq
  unfold percentile
  simp only [hlen0, if_false]
  set a := List.insertionSort (fun x y => x ≤ y) arr with ha
  set i : ℤ := min ((a.length : ℤ) - 1) (max 0 ⌊p / 100 * (a.length : ℚ)⌋) with hi
  have h1 : i ≤ (a.length : ℤ) - 1 := min_le_left _ _
  have h2 : 1 ≤ a.length := by omega
  have hlt : i.toNat < a.length := by omega
  cases hv : a.get? i.toNat with
  | none => exact absurd (List.get?_eq_none.mp hv) (by omega)
  | some v => exact ⟨v, rfl⟩

lemma clamp01_bounds (x : ℝ) : 0 ≤ clamp01 x ∧ clamp01 x ≤ 1 :=
  ⟨le_max_left 0 _, max_le (by norm_num) (min_le_left 1 x)⟩

/-- C6: with low/high references taken as percentiles of a non-empty speed
sample, the `|| 1` fallback keeps the normalization denominator nonzero
(even when all sampled speeds are equal) and the normalized speed always
lies in `[0, 1]`. -/
theorem normalizedSpeed_safe (speed : ℝ) (speeds : List ℝ) (h : speeds ≠ []) :
    ∃ low high, percentile speeds 10 = some low ∧ percentile speeds 90 = some high ∧
      jsOr1 (high - low) ≠ 0 ∧
      0 ≤ normalizedSpeed speed low high ∧ normalizedSpeed speed low high ≤ 1 := by
  obtain ⟨low, hlow⟩ := percentile_isSome speeds h 10
  obtain ⟨high, hhigh⟩ := percentile_isSome speeds h 90
  refine ⟨low, high, hlow, hhigh, ?_, ?_, ?_⟩
  · unfold jsOr1
    by_cases hz : high - low = 0
    · simp [hz]
    · simp [hz]
  · exact (clamp01_bounds _).1
  · exact (clamp01_bounds _).2

/-- Witness for C6 at a degenerate concrete sample (all speeds equal). -/
theorem normalizedSpeed_safe_witness :
    ([5, 5] : List ℝ) ≠ [] ∧
      (∃ low high, percentile ([5, 5] : List ℝ) 10 = some low ∧
        percentile ([5, 5] : List ℝ) 90 = some high ∧
        jsOr1 (high - low) ≠ 0 ∧
        0 ≤ normalizedSpeed 7 low high ∧ normalizedSpeed 7 low high ≤ 1) :=
  ⟨by simp, normalizedSpeed_safe 7 [5, 5] (by simp)⟩


/-- A THREE.Vector3 value. -/
structure Vec3 where
  x : ℝ
  y : ℝ
  z : ℝ

namespace Vec3

/-- `a.add(b)` / vector sum. -/
def add (a b : Vec3) : Vec3 := ⟨a.x + b.x, a.y + b.y, a.z + b.z⟩

/-- `a.sub(b)` / `new Vector3().subVectors(a, b)`. -/
def sub (a b : Vec3) : Vec3 := ⟨a.x - b.x, a.y - b.y, a.z - b.z⟩

/-- `v.multiplyScalar(s)`. -/
def smul (v : Vec3) (s : ℝ) : Vec3 := ⟨v.x * s, v.y * s, v.z * s⟩

/-- `a.dot(b)`. -/
def dot (a b : Vec3) : ℝ := a.x * b.x + a.y * b.y + a.z * b.z

/-- `v.lengthSq()`. -/
def lengthSq (v : Vec3) : ℝ := v.x ^ 2 + v.y ^ 2 + v.z ^ 2

/-- `v.length()`. -/
noncomputable def length (v : Vec3) : ℝ := Real.sqrt v.lengthSq

/-- `v.normalize()` — THREE divides by `length() || 1`. -/
noncomputable def normalize (v : Vec3) : Vec3 := v.smul (1 / jsOr1 v.length)

/-- `a.lerp(b, t)` — componentwise `x += (b.x - x) * t`. -/
def lerp (a b : Vec3) (t : ℝ) : Vec3 :=
  ⟨WindGlobe.lerp a.x b.x t, WindGlobe.lerp a.y b.y t, WindGlobe.lerp a.z b.z t⟩

/-- `a.distanceToSquared(b)`. -/
def distanceToSquared (a b : Vec3) : ℝ :=
  (a.x - b.x) ^ 2 + (a.y - b.y) ^ 2 + (a.z - b.z) ^ 2

end Vec3

/-- `Math.max(1, Math.ceil(angle / maxAngleRad))` with
`angle = acos(clamp(dot(normalize(a), normalize(b)), -1, 1))` — the number
of sub-steps `densifySegments` takes on the segment `a → b`.  At
`maxAngleRad = 0` the JS division yields `Infinity` for a positive angle
(`j < Infinity` never fails: the subdivision loop does not terminate;
modelled by `none`) and `NaN` for a zero angle (`Math.max(1, NaN) = NaN`
and `j < NaN` fails at once: zero iterations). -/
noncomputable def stepsFor (a b : Vec3) (maxAngleRad : ℝ) : Option ℕ :=
  if maxAngleRad = 0 then
    if Real.arccos (clamp (Vec3.dot a.normalize b.normalize) (-1) 1) = 0 then some 0
    else none
  else
    some (max 1 ⌈Real.arccos (clamp (Vec3.dot a.normalize b.normalize) (-1) 1) /
      maxAngleRad⌉).toNat

/-- The inner `for (let j = 0; j < steps; j++)` of `densifySegments`,
pushing `(points lerp, speeds lerp)` at `t = j / steps` and skipping `j = 0`
on every segment after the first (`if (i > 0 && j === 0) continue`). -/
noncomputable def segmentPoints (a b : Vec3) (s0 s1 : ℝ) (steps : ℕ)
    (skipFirst : Bool) : List (Vec3 × ℝ) :=
  (List.range steps).filterMap fun (j : ℕ) =>
    if skipFirst ∧ j = 0 then none
    else some (a.lerp b ((j : ℝ) / (steps : ℝ)), lerp s0 s1 ((j : ℝ) / (steps : ℝ)))

/-- The outer `for (let i = 0; i < points.length - 1; i++)` of
`densifySegments`, walking consecutive pairs with the parallel speed list:
`s0 = speeds[i]`, `s1 = speeds[i + 1] ?? s0`.  (An out-of-range `speeds[i]`
is `undefined` in JS; its placeholder `0` here is never looked at by the
claims, which pair equal-length inputs.) -/
noncomputable def densifyLoop (m : ℝ) : List Vec3 → List ℝ → Bool → Option (List (Vec3 × ℝ))
  | a :: b :: rest, speeds, skip =>
      match stepsFor a b m with
      | none => none
      | some steps =>
          match densifyLoop m (b :: rest) (speeds.drop 1) true with
          | none => none
          | some tail =>
              some (segmentPoints a b (speeds.getD 0 0) (speeds.getD 1 (speeds.getD 0 0))
                steps skip ++ tail)
  | _, _, _ => some []

/-- `densifySegments(points, speeds, maxAngleRad)`; `none` models the
`TypeError` thrown by `points[points.length - 1].clone()` on empty input,
and the non-terminating subdivision loop when `maxAngleRad = 0` meets a
segment of positive angle. -/
noncomputable def densifySegments (points : List Vec3) (speeds : List ℝ)
    (maxAngleRad : ℝ) : Option (List Vec3 × List ℝ) :=
  match points.getLast? with
  | none => none
  | some lastPoint =>
      match densifyLoop maxAngleRad points speeds false with
      | none => none
      | some body =>
          some (body.map Prod.fst ++ [lastPoint],
            body.map Prod.snd ++ [speeds.getD (speeds.length - 1) 0])

lemma vec3_lerp_zero (a b : Vec3) : Vec3.lerp a b 0 = a := by
  cases a
  cases b
  simp [Vec3.lerp, lerp]

lemma lerp_zero (a b : ℝ) : lerp a b 0 = a := by
  simp [lerp]

lemma toNat_max_one_pos (c : ℤ) : 1 ≤ (max 1 c).toNat := by
  have h : (1 : ℤ) ≤ max 1 c := le_max_left _ _
  omega

lemma stepsFor_of_pos (a b : Vec3) {m : ℝ} (hm : 0 < m) :
    stepsFor a b m =
      some (max 1 ⌈Real.arccos (clamp (Vec3.dot a.normalize b.normalize) (-1) 1)
        / m⌉).toNat := by
  unfold stepsFor
  rw [if_neg hm.ne']

lemma segmentPoints_head (a b : Vec3) (s0 s1 : ℝ) {steps : ℕ} (h : 1 ≤ steps) :
    (segmentPoints a b s0 s1 steps false).head? = some (a, s0) := by
  obtain ⟨k, rfl⟩ : ∃ k, steps = k + 1 := ⟨steps - 1, by omega⟩
  unfold segmentPoints
  rw [List.range_succ_eq_map, List.filterMap_cons]
  simp [vec3_lerp_zero, lerp_zero]

lemma segmentPoints_one (a b : Vec3) (s0 s1 : ℝ) :
    segmentPoints a b s0 s1 1 false = [(a, s0)] := by
  unfold segmentPoints
  simp [List.range_succ, vec3_lerp_zero, lerp_zero]

lemma segmentPoints_one_skip (a b : Vec3) (s0 s1 : ℝ) :
    segmentPoints a b s0 s1 1 true = [] := by
  unfold segmentPoints
  simp [List.range_succ]

lemma normalize_axis (c : ℝ) (hc : 0 < c) :
    Vec3.normalize ⟨c, 0, 0⟩ = ⟨1, 0, 0⟩ := by
  have hlen : Vec3.length ⟨c, 0, 0⟩ = c := by
    simp only [Vec3.length, Vec3.lengthSq]
    rw [show c ^ 2 + (0 : ℝ) ^ 2 + (0 : ℝ) ^ 2 = c ^ 2 by ring]
    exact Real.sqrt_sq hc.le
  simp only [Vec3.normalize, hlen, jsOr1, hc.ne', if_false, Vec3.smul, one_div]
  rw [mul_inv_cancel₀ hc.ne']
  simp

lemma stepsFor_axis (c d : ℝ) (hc : 0 < c) (hd : 0 < d) :
    stepsFor ⟨c, 0, 0⟩ ⟨d, 0, 0⟩ 1 = some 1 := by
  rw [stepsFor_of_pos ⟨c, 0, 0⟩ ⟨d, 0, 0⟩ one_pos]
  rw [normalize_axis c hc, normalize_axis d hd]
  have hdot : Vec3.dot ⟨1, 0, 0⟩ ⟨1, 0, 0⟩ = 1 := by
    simp [Vec3.dot]
  rw [hdot]
  have hclamp : clamp (1 : ℝ) (-1) 1 = 1 := by
    simp [clamp]
  rw [hclamp, Real.arccos_one]
  norm_num

lemma densifyLoop_cons (m : ℝ) (p q : Vec3) (rest : List Vec3)
    (speeds : List ℝ) (skip : Bool) :
    densifyLoop m (p :: q :: rest) speeds skip =
      match stepsFor p q m with
      | none => none
      | some steps =>
          match densifyLoop m (q :: rest) (speeds.drop 1) true with
          | none => none
          | some tail =>
              some (segmentPoints p q (speeds.getD 0 0)
                (speeds.getD 1 (speeds.getD 0 0)) steps skip ++ tail) := rfl

lemma densifyLoop_isSome (m : ℝ) (hm : 0 < m) :
    ∀ (pts : List Vec3) (speeds : List ℝ) (skip : Bool),
      ∃ body, densifyLoop m pts speeds skip = some body := by
  intro pts
  induction pts with
  | nil => exact fun speeds skip => ⟨[], rfl⟩
  | cons a t ih =>
    intro speeds skip
    cases t with
    | nil => exact ⟨[], rfl⟩
    | cons b rest =>
      obtain ⟨tail, htail⟩ := ih (speeds.drop 1) true
      refine ⟨segmentPoints a b (speeds.getD 0 0) (speeds.getD 1 (speeds.getD 0 0))
        (max 1 ⌈Real.arccos (clamp (Vec3.dot a.normalize b.normalize) (-1) 1)
          / m⌉).toNat skip ++ tail, ?_⟩
      rw [densifyLoop_cons, stepsFor_of_pos a b hm]
      dsimp only
      rw [htail]

/-- C4 counterexample: three collinear points (segment angles `0`, hence a
single step per segment) densify to only two points — strictly fewer than
the non-empty input — with the positive `maxAngleRad = 1`. -/
theorem densifySegments_reduces_count :
    (0 : ℝ) < 1 ∧
      ([⟨1, 0, 0⟩, ⟨2, 0, 0⟩, ⟨3, 0, 0⟩] : List Vec3).length = 3 ∧
      (∃ dp ds,
        densifySegments [⟨1, 0, 0⟩, ⟨2, 0, 0⟩, ⟨3, 0, 0⟩] [1, 1, 1] 1 =
            some (dp, ds) ∧
          dp.length = 2) := by
  refine ⟨by norm_num, rfl, [⟨1, 0, 0⟩, ⟨3, 0, 0⟩], [1, 1], ?_, rfl⟩
  have e3 : densifyLoop 1 [⟨3, 0, 0⟩] [1] true = some [] := rfl
  have e2 : densifyLoop 1 [⟨2, 0, 0⟩, ⟨3, 0, 0⟩] [1, 1] true = some [] := by
    rw [densifyLoop_cons, stepsFor_axis 2 3 (by norm_num) (by norm_num)]
    show (match densifyLoop 1 [⟨3, 0, 0⟩] [1] true with
      | none => none
      | some tail => some (segmentPoints ⟨2, 0, 0⟩ ⟨3, 0, 0⟩ 1 1 1 true ++ tail)) =
        some []
    rw [e3, segmentPoints_one_skip]
    rfl
  have e1 : densifyLoop 1 [⟨1, 0, 0⟩, ⟨2, 0, 0⟩, ⟨3, 0, 0⟩] [1, 1, 1] false =
      some [(⟨1, 0, 0⟩, 1)] := by
    rw [densifyLoop_cons, stepsFor_axis 1 2 (by norm_num) (by norm_num)]
    show (match densifyLoop 1 [⟨2, 0, 0⟩, ⟨3, 0, 0⟩] [1, 1] true with
      | none => none
      | some tail => some (segmentPoints ⟨1, 0, 0⟩ ⟨2, 0, 0⟩ 1 1 1 false ++ tail)) =
        some [(⟨1, 0, 0⟩, 1)]
    rw [e2, segmentPoints_one]
    rfl
  unfold densifySegments
  simp only [List.getLast?]
  rw [e1]
  rfl

/-- C4 (amended): densification of a non-empty polyline at any *positive*
`maxAngleRad` always succeeds, preserves the first and last input point
exactly, and yields at least `min(input length, 2)` points — but (per the
counterexample) it can drop interior input points, so the output may be
shorter than the input. -/
theorem densifySegments_first_last (points : List Vec3) (speeds : List ℝ)
    (m : ℝ) (hm : 0 < m) (h : points ≠ []) :
    ∃ dp ds, densifySegments points speeds m = some (dp, ds) ∧
      min points.length 2 ≤ dp.length ∧
      dp.head? = points.head? ∧ dp.getLast? = points.getLast? := by
  obtain ⟨p, rest, rfl⟩ : ∃ p rest, points = p :: rest := by
    cases points with
    | nil => exact absurd rfl h
    | cons p rest => exact ⟨p, rest, rfl⟩
  have hlast : (p :: rest).getLast? = some ((p :: rest).getLast (by simp)) :=
    List.getLast?_eq_getLast_of_ne_nil _
  cases rest with
  | nil =>
    refine ⟨[p], [speeds.getD (speeds.length - 1) 0], ?_, by simp, by simp, by simp⟩
    unfold densifySegments
    simp [densifyLoop]
  | cons q rest' =>
    have hS : stepsFor p q m =
        some (max 1 ⌈Real.arccos (clamp (Vec3.dot p.normalize q.normalize) (-1) 1)
          / m⌉).toNat :=
      stepsFor_of_pos p q hm
    have hSpos : 1 ≤ (max 1 ⌈Real.arccos
        (clamp (Vec3.dot p.normalize q.normalize) (-1) 1) / m⌉).toNat :=
      toNat_max_one_pos _
    obtain ⟨tailBody, htail⟩ := densifyLoop_isSome m hm (q :: rest') (speeds.drop 1) true
    have hhead :
        (segmentPoints p q (speeds.getD 0 0) (speeds.getD 1 (speeds.getD 0 0))
            (max 1 ⌈Real.arccos (clamp (Vec3.dot p.normalize q.normalize) (-1) 1)
              / m⌉).toNat false).head? = some (p, speeds.getD 0 0) :=
      segmentPoints_head p q _ _ hSpos
    have hbody : densifyLoop m (p :: q :: rest') speeds false =
        some (segmentPoints p q (speeds.getD 0 0) (speeds.getD 1 (speeds.getD 0 0))
            (max 1 ⌈Real.arccos (clamp (Vec3.dot p.normalize q.normalize) (-1) 1)
              / m⌉).toNat false ++ tailBody) := by
      rw [densifyLoop_cons, hS, htail]
    have hne :
        segmentPoints p q (speeds.getD 0 0) (speeds.getD 1 (speeds.getD 0 0))
            (max 1 ⌈Real.arccos (clamp (Vec3.dot p.normalize q.normalize) (-1) 1)
              / m⌉).toNat false ≠ [] := by
      intro h0
      rw [h0] at hhead
      simp at hhead
    obtain ⟨e, tail, hseg⟩ : ∃ e tail,
        segmentPoints p q (speeds.getD 0 0) (speeds.getD 1 (speeds.getD 0 0))
            (max 1 ⌈Real.arccos (clamp (Vec3.dot p.normalize q.normalize) (-1) 1)
              / m⌉).toNat false = e :: tail := by
      cases hSg : segmentPoints p q (speeds.getD 0 0) (speeds.getD 1 (speeds.getD 0 0))
          (max 1 ⌈Real.arccos (clamp (Vec3.dot p.normalize q.normalize) (-1) 1)
            / m⌉).toNat false with
      | nil => exact absurd hSg hne
      | cons e tail => exact ⟨e, tail, rfl⟩
    have he : e = (p, speeds.getD 0 0) := by
      rw [hseg] at hhead
      simpa using hhead
    refine ⟨(segmentPoints p q (speeds.getD 0 0) (speeds.getD 1 (speeds.getD 0 0))
          (max 1 ⌈Real.arccos (clamp (Vec3.dot p.normalize q.normalize) (-1) 1)
            / m⌉).toNat false ++ tailBody).map Prod.fst ++
        [(p :: q :: rest').getLast (by simp)],
      (segmentPoints p q (speeds.getD 0 0) (speeds.getD 1 (speeds.getD 0 0))
          (max 1 ⌈Real.arccos (clamp (Vec3.dot p.normalize q.normalize) (-1) 1)
            / m⌉).toNat false ++ tailBody).map Prod.snd ++
        [speeds.getD (speeds.length - 1) 0], ?_, ?_, ?_, ?_⟩
    · unfold densifySegments
      rw [hlast]
      show (match densifyLoop m (p :: q :: rest') speeds false with
        | none => none
        | some body =>
            some (body.map Prod.fst ++ [(p :: q :: rest').getLast (by simp)],
              body.map Prod.snd ++ [speeds.getD (speeds.length - 1) 0])) = _
      rw [hbody]
    · rw [hseg, he]
      simp only [List.cons_append, List.map_cons, List.map_append, List.length_cons,
        List.length_append]
      omega
    · rw [hseg, he]
      simp
    · simp [List.getLast?_concat, hlast]

/-- Witness for the amended C4 at a concrete one-point polyline and the
positive `maxAngleRad = 1`. -/
theorem densifySegments_first_last_witness :
    (0 : ℝ) < 1 ∧ ([⟨0, 0, 1⟩] : List Vec3) ≠ [] ∧
      (∃ dp ds, densifySegments [⟨0, 0, 1⟩] [2] 1 = some (dp, ds) ∧
        min ([⟨0, 0, 1⟩] : List Vec3).length 2 ≤ dp.length ∧
        dp.head? = ([⟨0, 0, 1⟩] : List Vec3).head? ∧
        dp.getLast? = ([⟨0, 0, 1⟩] : List Vec3).getLast?) :=
  ⟨by norm_num, by simp,
    densifySegments_first_last [⟨0, 0, 1⟩] [2] 1 (by norm_num) (by simp)⟩

/-- A THREE.Color (linear RGB components in `[0,1]`). -/
structure Color where
  r : ℝ
  g : ℝ
  b : ℝ

/-- `c1.lerp(c2, alpha)` — componentwise `r += (c2.r - r) * alpha`. -/
def Color.lerp (c1 c2 : Color) (alpha : ℝ) : Color :=
  ⟨WindGlobe.lerp c1.r c2.r alpha, WindGlobe.lerp c1.g c2.g alpha,
    WindGlobe.lerp c1.b c2.b alpha⟩

/-- One candidate record of the glyph build pass
(`{ position, speed, normalizedSpeed, direction, lat, lon, u, v, color }`). -/
structure GlyphPoint where
  position : Vec3
  speed : ℝ
  normalizedSpeed : ℝ
  direction : Vec3
  lat : ℚ
  lon : ℚ
  u : ℚ
  v : ℚ
  color : Color

/-- `const minDistSq = (hitboxRadius * 2) * (hitboxRadius * 2)`. -/
def minDistSqOf (hitboxRadius : ℝ) : ℝ :=
  (hitboxRadius * 2) * (hitboxRadius * 2)

open scoped Classical

-- The `candidateWindPoints.forEach` greedy placement: a candidate is
-- dropped when (with overlap avoidance on) some already-placed anchor is
-- strictly closer, by squared distance, than `minDistSq`; otherwise its
-- anchor joins `placed` and the candidate joins the retained pick targets.
noncomputable def placeHitboxes (avoid : Bool) (minDistSq : ℝ) :
    List GlyphPoint → List Vec3 → List GlyphPoint
  | [], _ => []
  | wp :: rest, placed =>
      if avoid ∧ ∃ q ∈ placed, Vec3.distanceToSquared q wp.position < minDistSq then
        placeHitboxes avoid minDistSq rest placed
      else
        wp :: placeHitboxes avoid minDistSq rest (placed ++ [wp.position])

lemma placeHitboxes_invariant (m : ℝ) (cands : List GlyphPoint) :
    ∀ placed : List Vec3,
      (∀ x ∈ placeHitboxes true m cands placed, ∀ q ∈ placed,
          m ≤ Vec3.distanceToSquared q x.position) ∧
      List.Pairwise (fun a b => m ≤ Vec3.distanceToSquared a.position b.position)
        (placeHitboxes true m cands placed) := by
  induction cands with
  | nil =>
    intro placed
    constructor
    · intro x hx
      simp [placeHitboxes] at hx
    · simp [placeHitboxes]
  | cons wp rest ih =>
    intro placed
    have hred0 : placeHitboxes true m (wp :: rest) placed =
        if true = true ∧ ∃ q ∈ placed, Vec3.distanceToSquared q wp.position < m then
          placeHitboxes true m rest placed
        else
          wp :: placeHitboxes true m rest (placed ++ [wp.position]) := rfl
    by_cases hclose : ∃ q ∈ placed, Vec3.distanceToSquared q wp.position < m
    · rw [hred0, if_pos ⟨rfl, hclose⟩]
      exact ih placed
    · rw [hred0, if_neg (fun hc => hclose hc.2)]
      have hfar : ∀ q ∈ placed, m ≤ Vec3.distanceToSquared q wp.position := by
        intro q hq
        by_contra hlt
        exact hclose ⟨q, hq, lt_of_not_le hlt⟩
      obtain ⟨iha, ihb⟩ := ih (placed ++ [wp.position])
      constructor
      · intro x hx q hq
        rcases List.mem_cons.1 hx with rfl | hx'
        · exact hfar q hq
        · exact iha x hx' q (List.mem_append_left _ hq)
      · refine List.pairwise_cons.2 ⟨?_, ihb⟩
        intro y hy
        exact iha y hy wp.position (List.mem_append_right _ (by simp))

/-- C7: with overlap avoidance enabled, any two distinct retained pick
targets have Euclidean anchor distance at least `2 × hitRadius`. -/
theorem placeHitboxes_spacing (cands : List GlyphPoint) (r : ℝ) (hr : 0 ≤ r) :
    List.Pairwise
      (fun a b => 2 * r ≤ Real.sqrt (Vec3.distanceToSquared a.position b.position))
      (placeHitboxes true (minDistSqOf r) cands []) := by
  have h := (placeHitboxes_invariant (minDistSqOf r) cands []).2
  refine h.imp ?_
  intro a b hab
  have hm : (2 * r) ^ 2 ≤ Vec3.distanceToSquared a.position b.position := by
    rw [show (2 * r) ^ 2 = minDistSqOf r by unfold minDistSqOf; ring]
    exact hab
  calc 2 * r = Real.sqrt ((2 * r) ^ 2) := by
        rw [Real.sqrt_sq (by positivity)]
    _ ≤ Real.sqrt (Vec3.distanceToSquared a.position b.position) :=
        Real.sqrt_le_sqrt hm

/-- Witness for C7 at `hitRadius = 1/2` and two concrete anchors. -/
theorem placeHitboxes_spacing_witness :
    (0 : ℝ) ≤ 1 / 2 ∧
      List.Pairwise
        (fun a b => 2 * (1 / 2 : ℝ) ≤
          Real.sqrt (Vec3.distanceToSquared a.position b.position))
        (placeHitboxes true (minDistSqOf (1 / 2))
          [⟨⟨0, 0, 0⟩, 0, 0, ⟨1, 0, 0⟩, 0, 0, 0, 0, ⟨0, 0, 0⟩⟩,
           ⟨⟨3, 0, 0⟩, 0, 0, ⟨1, 0, 0⟩, 0, 3, 0, 0, ⟨0, 0, 0⟩⟩] []) :=
  ⟨by norm_num, placeHitboxes_spacing _ (1 / 2) (by norm_num)⟩

/-- `degToRad(d) = (Math.PI / 180) * d`. -/
noncomputable def degToRad (d : ℚ) : ℝ :=
  Real.pi / 180 * (d : ℝ)

/-- `latLonToVec3(lat, lon, radius)` from `utils/coords.js`. -/
noncomputable def latLonToVec3 (lat lon radius : ℚ) : Vec3 :=
  ⟨-(radius : ℝ) * Real.sin (degToRad (90 - lat)) * Real.cos (degToRad (lon + 180)),
   (radius : ℝ) * Real.cos (degToRad (90 - lat)),
   (radius : ℝ) * Real.sin (degToRad (90 - lat)) * Real.sin (degToRad (lon + 180))⟩

/-- `interpolateWind(lat, lon)` — delegates to the bilinear sampler.  (The
`!data?.meta?.grid || !data.u || !data.v` shape guard of the source cannot
fire here: the `WindData` record always carries all four fields.) -/
def interpolateWind (d : WindData) (lat lon : ℚ) : Option (ℚ × ℚ) :=
  sampleBilinear d lat lon

/-- One accepted sample of the integration loop: the pushed `points` entry,
the pushed `speeds` entry and the pushed `pathInfo` lat/lon. -/
noncomputable def genLoop (d : WindData) (thr radius : ℚ) :
    ℕ → ℚ → ℚ → List (Vec3 × ℝ × ℚ × ℚ)
  | 0, _, _ => []
  | fuel + 1, lat, lon =>
      match interpolateWind d lat lon with
      | none => []
      | some w =>
          if hypot w.1 w.2 < (thr : ℝ) then []
          else
            (latLonToVec3 lat lon radius, hypot w.1 w.2, lat, lon) ::
              (if lat + w.2 * (7 / 20 * (3 / 10)) < -90 ∨
                  90 < lat + w.2 * (7 / 20 * (3 / 10)) then []
               else
                 genLoop d thr radius fuel (lat + w.2 * (7 / 20 * (3 / 10)))
                   (if lon + w.1 * (7 / 20 * (3 / 10)) < -180 then
                      lon + w.1 * (7 / 20 * (3 / 10)) + 360
                    else if 180 < lon + w.1 * (7 / 20 * (3 / 10)) then
                      lon + w.1 * (7 / 20 * (3 / 10)) - 360
                    else lon + w.1 * (7 / 20 * (3 / 10))))

/-- The data of the `{ line, points: densePoints, curve, speeds:
denseSpeedNorms }` record that `generateStreamline` returns (minus the two
render resources, which are built from `points`); the `pathInfo` list the
loop accumulates is *not* part of the return value. -/
structure StreamlineResult where
  points : List Vec3
  speeds : List ℝ

/-- `generateStreamline(startLat, startLon, startColor)` with the module
options `streamlineSegments`, `speedThreshold`, `globeRadius`, `lift` made
explicit; `stepSize = 0.35` and the `* 0.3` scale are inlined in `genLoop`.
In the non-`none` branch `speeds` has ≥ 2 entries, so the percentile
`getD` defaults (JS `NaN`) are unreachable. -/
noncomputable def generateStreamline (d : WindData) (segments : ℕ)
    (thr globeRadius liftOpt startLat startLon : ℚ) (startColor : Color) :
    Option StreamlineResult :=
  let entries := genLoop d thr (globeRadius + liftOpt) segments startLat startLon
  let points := entries.map (fun e => e.1)
  let speeds := entries.map (fun e => e.2.1)
  if points.length < 2 then none
  else
    let p10 := (percentile speeds 10).getD 0
    let p90 := (percentile speeds 90).getD 0
    let denom := jsOr1 (p90 - p10)
    match densifySegments points speeds (degToRad (1 / 2)) with
    | none => none
    | some (densePoints, denseSpeeds) =>
        some ⟨densePoints, denseSpeeds.map (fun s => clamp01 ((s - p10) / denom))⟩

/-- C5: a streamline with fewer than 2 accepted points is `null`; in
particular, a seed whose very first interpolated sample is slower than the
threshold accepts zero points and yields `null`. -/
theorem generateStreamline_rejects :
    (∀ (d : WindData) (segments : ℕ) (thr gr liftOpt lat lon : ℚ) (col : Color),
        (genLoop d thr (gr + liftOpt) segments lat lon).length < 2 →
        generateStreamline d segments thr gr liftOpt lat lon col = none) ∧
    (∀ (d : WindData) (segments : ℕ) (thr gr liftOpt lat lon : ℚ) (col : Color)
        (w : ℚ × ℚ),
        interpolateWind d lat lon = some w →
        hypot w.1 w.2 < (thr : ℝ) →
        genLoop d thr (gr + liftOpt) segments lat lon = [] ∧
          generateStreamline d segments thr gr liftOpt lat lon col = none) := by
  have hempty : ∀ (d : WindData) (segments : ℕ) (thr radius lat lon : ℚ)
      (w : ℚ × ℚ), interpolateWind d lat lon = some w →
      hypot w.1 w.2 < (thr : ℝ) →
      genLoop d thr radius segments lat lon = [] := by
    intro d segments thr radius lat lon w hw hlt
    cases segments with
    | zero => rfl
    | succ fuel =>
      unfold genLoop
      rw [hw]
      simp [hlt]
  constructor
  · intro d segments thr gr liftOpt lat lon col hshort
    unfold generateStreamline
    have : (List.map (fun e => e.1)
        (genLoop d thr (gr + liftOpt) segments lat lon)).length < 2 := by
      rw [List.length_map]
      exact hshort
    simp only [this, if_true]
  · intro d segments thr gr liftOpt lat lon col w hw hlt
    have h0 := hempty d segments thr (gr + liftOpt) lat lon w hw hlt
    refine ⟨h0, ?_⟩
    unfold generateStreamline
    rw [h0]
    simp

/-- A calm 2×2 grid: wind is finite but zero everywhere. -/
def calmGrid : WindData :=
  { lats := [0, 10]
    lons := [0, 10]
    U := [[some 0, some 0], [some 0, some 0]]
    V := [[some 0, some 0], [some 0, some 0]] }

/-- Witness for C5: on the calm grid the first sample is `(0, 0)`, slower
than the default threshold `1`, so integration accepts nothing and the
result is `null`. -/
theorem generateStreamline_rejects_witness :
    interpolateWind calmGrid 5 5 = some (0, 0) ∧
      hypot 0 0 < ((1 : ℚ) : ℝ) ∧
      genLoop calmGrid 1 (2 + 3 / 100) 120 5 5 = [] ∧
      generateStreamline calmGrid 120 1 2 (3 / 100) 5 5 ⟨1, 1, 1⟩ = none := by
  have hw : interpolateWind calmGrid 5 5 = some (0, 0) := by
    norm_num [interpolateWind, sampleBilinear, corners, cellOf, idx2?, idx?,
      scanFrom, clamp, lerp, calmGrid, List.getD]
  have hlt : hypot 0 0 < ((1 : ℚ) : ℝ) := by
    simp [hypot]
  have h := generateStreamline_rejects.2 calmGrid 120 1 2 (3 / 100) 5 5 ⟨1, 1, 1⟩
    (0, 0) hw hlt
  exact ⟨hw, hlt, h.1, h.2⟩

/-- The five `colorStops` of the speed color ramp (hex literals decoded to
THREE linear RGB components). -/
noncomputable def colorStops : List (ℝ × Color) :=
  [(0, ⟨74 / 255, 144 / 255, 226 / 255⟩),
   (1 / 4, ⟨80 / 255, 200 / 255, 120 / 255⟩),
   (1 / 2, ⟨255 / 255, 235 / 255, 59 / 255⟩),
   (3 / 4, ⟨255 / 255, 152 / 255, 0⟩),
   (1, ⟨244 / 255, 67 / 255, 54 / 255⟩)]

/-- The `for` scan of `getColorForSpeed` over consecutive color stops. -/
noncomputable def colorScan (t : ℝ) : List (ℝ × Color) → Option Color
  | s1 :: s2 :: rest =>
      if s1.1 ≤ t ∧ t ≤ s2.1 then
        some (Color.lerp s1.2 s2.2 ((t - s1.1) / (s2.1 - s1.1)))
      else colorScan t (s2 :: rest)
  | _ => none

/-- `getColorForSpeed(normalizedSpeed)`; the fallback is the last stop. -/
noncomputable def getColorForSpeed (normSpeed : ℝ) : Color :=
  (colorScan (clamp01 normSpeed) colorStops).getD ⟨244 / 255, 67 / 255, 54 / 255⟩

/-- The speed-collection pass of `init`: `Math.hypot(u, v)` over every grid
cell whose `u` and `v` are both finite. -/
noncomputable def gridSpeeds (d : WindData) : List ℝ :=
  (List.range d.lats.length).flatMap fun j =>
    (List.range d.lons.length).filterMap fun i =>
      match idx2? d.U j i, idx2? d.V j i with
      | some u, some v => some (hypot u v)
      | _, _ => none

/-- Index sequence of `for (let k = start; k < n; k += stride)`; a zero
stride never occurs in the claims (in JS it would never terminate). -/
def strideIdx (n start stride : ℕ) : List ℕ :=
  if stride = 0 then []
  else (List.range ((n - start + stride - 1) / stride)).map fun k => start + k * stride

/-- `const dLat = Math.abs((lats[1] ?? lats[0]) - lats[0] || 1)`. -/
def dLatOf (d : WindData) : ℚ :=
  |jsOr1 (d.lats.getD 1 (d.lats.getD 0 0) - d.lats.getD 0 0)|

/-- `const dLon = Math.abs((lons[1] ?? lons[0]) - lons[0] || 1)`. -/
def dLonOf (d : WindData) : ℚ :=
  |jsOr1 (d.lons.getD 1 (d.lons.getD 0 0) - d.lons.getD 0 0)|

/-- The glyph build options of `createInteractiveWind` plus the grid and the
`Math.random()` draw sequence (an oracle consumed two draws per surviving
candidate, making the pass deterministic given the oracle). -/
structure GlyphCtx where
  d : WindData
  strideBase : ℕ
  poleStrideMul : ℚ
  jitterAmt : ℚ
  speedThreshold : ℚ
  globeRadius : ℚ
  liftOpt : ℚ
  rnd : ℕ → ℚ

/-- Longitude cell indices of one latitude row `j`: the pole-compensated
`lonStep = Math.max(1, Math.round(strideBase * (1 + poleStrideMul * (1 -
cosw))))` with `cosw = Math.max(0.001, cos(lat))`, and the half-step offset
on alternating rows. -/
noncomputable def rowCells (ctx : GlyphCtx) (j : ℕ) : List (ℕ × ℕ) :=
  let lat := ctx.d.lats.getD j 0
  let cosw := max (1 / 1000 : ℝ) (Real.cos (degToRad lat))
  let lonStep := max 1 (round ((ctx.strideBase : ℝ) *
    (1 + (ctx.poleStrideMul : ℝ) * (1 - cosw)))).toNat
  let iOffset := if (j / ctx.strideBase) % 2 ≠ 0 then lonStep / 2 else 0
  (strideIdx ctx.d.lons.length iOffset lonStep).map fun i => (j, i)

/-- All `(j, i)` cells the row/column loops of `init` visit, in order. -/
noncomputable def cellList (ctx : GlyphCtx) : List (ℕ × ℕ) :=
  (strideIdx ctx.d.lats.length 0 ctx.strideBase).flatMap (rowCells ctx)

/-- The jittered `(jLat, jLon)` of a surviving candidate, consuming the two
`Math.random()` draws at positions `k` and `k + 1`. -/
def jitteredLatLon (ctx : GlyphCtx) (k j i : ℕ) : ℚ × ℚ :=
  (ctx.d.lats.getD j 0 + (ctx.rnd k - 1 / 2) * dLatOf ctx.d * ctx.jitterAmt,
   ctx.d.lons.getD i 0 + (ctx.rnd (k + 1) - 1 / 2) * dLonOf ctx.d * ctx.jitterAmt)

/-- `dir = east * u + north * v` built from the jittered position's local
east/north unit tangents. -/
noncomputable def dirAt (ctx : GlyphCtx) (k j i : ℕ) (u v : ℚ) : Vec3 :=
  let r := ctx.globeRadius + ctx.liftOpt
  let jl := jitteredLatLon ctx k j i
  let start := latLonToVec3 jl.1 jl.2 r
  let east := ((latLonToVec3 jl.1 (jl.2 + 1 / 100) r).sub start).normalize
  let north := ((latLonToVec3 (jl.1 + 1 / 100) jl.2 r).sub start).normalize
  (east.smul (u : ℝ)).add (north.smul (v : ℝ))

/-- The candidate record pushed onto `candidateWindPoints`: grid-aligned
(un-jittered) anchor, raw `u`/`v`, speed, normalized speed, normalized
direction and speed color. -/
noncomputable def glyphAt (ctx : GlyphCtx) (p10 denom : ℝ) (k j i : ℕ)
    (u v : ℚ) : GlyphPoint :=
  let t := clamp01 ((hypot u v - p10) / denom)
  { position := latLonToVec3 (ctx.d.lats.getD j 0) (ctx.d.lons.getD i 0)
      (ctx.globeRadius + ctx.liftOpt)
    speed := hypot u v
    normalizedSpeed := t
    direction := (dirAt ctx k j i u v).normalize
    lat := ctx.d.lats.getD j 0
    lon := ctx.d.lons.getD i 0
    u := u
    v := v
    color := getColorForSpeed t }

/-- The candidate loop body of `init`: skip non-finite cells, skip
`speed < speedThreshold`, skip zero-length directions (after consuming the
two jitter draws), otherwise emit the candidate record. -/
noncomputable def buildGlyphsLoop (ctx : GlyphCtx) (p10 denom : ℝ) :
    List (ℕ × ℕ) → ℕ → List GlyphPoint
  | [], _ => []
  | (j, i) :: rest, k =>
      match idx2? ctx.d.U j i, idx2? ctx.d.V j i with
      | some u, some v =>
          if hypot u v < (ctx.speedThreshold : ℝ) then
            buildGlyphsLoop ctx p10 denom rest k
          else if (dirAt ctx k j i u v).lengthSq = 0 then
            buildGlyphsLoop ctx p10 denom rest (k + 2)
          else
            glyphAt ctx p10 denom k j i u v :: buildGlyphsLoop ctx p10 denom rest (k + 2)
      | _, _ => buildGlyphsLoop ctx p10 denom rest k

/-- The glyph-field build pass of `init`: the global percentile pass over
all finite speeds, then the row/column candidate loop.  (`getD 0` stands
for the JS `NaN` percentiles of an all-missing grid; in that case the loop
emits nothing, so the value is never used.) -/
noncomputable def buildGlyphs (ctx : GlyphCtx) : List GlyphPoint :=
  let speeds := gridSpeeds ctx.d
  let p10 := (percentile speeds 10).getD 0
  let p90 := (percentile speeds 90).getD 0
  let denom := jsOr1 (p90 - p10)
  buildGlyphsLoop ctx p10 denom (cellList ctx) 0

lemma buildGlyphsLoop_valid (ctx : GlyphCtx) (p10 denom : ℝ) :
    ∀ (cells : List (ℕ × ℕ)) (k : ℕ),
      List.Forall (fun g =>
        ∃ j i, idx2? ctx.d.U j i = some g.u ∧ idx2? ctx.d.V j i = some g.v ∧
          g.speed = hypot g.u g.v ∧ (ctx.speedThreshold : ℝ) ≤ g.speed)
        (buildGlyphsLoop ctx p10 denom cells k) := by
  intro cells
  induction cells with
  | nil =>
    intro k
    simp [buildGlyphsLoop]
  | cons c rest ih =>
    intro k
    obtain ⟨j, i⟩ := c
    have hred : buildGlyphsLoop ctx p10 denom ((j, i) :: rest) k =
        match idx2? ctx.d.U j i, idx2? ctx.d.V j i with
        | some u, some v =>
            if hypot u v < (ctx.speedThreshold : ℝ) then
              buildGlyphsLoop ctx p10 denom rest k
            else if (dirAt ctx k j i u v).lengthSq = 0 then
              buildGlyphsLoop ctx p10 denom rest (k + 2)
            else
              glyphAt ctx p10 denom k j i u v ::
                buildGlyphsLoop ctx p10 denom rest (k + 2)
        | _, _ => buildGlyphsLoop ctx p10 denom rest k := rfl
    rw [hred]
    cases hu : idx2? ctx.d.U j i with
    | none => exact ih k
    | some u =>
      cases hv : idx2? ctx.d.V j i with
      | none => exact ih k
      | some v =>
        dsimp only
        by_cases hslow : hypot u v < (ctx.speedThreshold : ℝ)
        · rw [if_pos hslow]
          exact ih k
        · rw [if_neg hslow]
          by_cases hdir : (dirAt ctx k j i u v).lengthSq = 0
          · rw [if_pos hdir]
            exact ih (k + 2)
          · rw [if_neg hdir]
            refine (List.forall_cons _ _ _).2 ⟨?_, ih (k + 2)⟩
            exact ⟨j, i, hu, hv, rfl, le_of_not_lt hslow⟩

/-- C8: every glyph the build pass emits carries the finite `u`, `v` of an
actual (non-missing) grid cell, and its `speed = hypot(u, v)` is at least
`speedThreshold`; no glyph arises from a missing cell. -/
theorem buildGlyphs_valid (ctx : GlyphCtx) :
    List.Forall (fun g =>
      ∃ j i, idx2? ctx.d.U j i = some g.u ∧ idx2? ctx.d.V j i = some g.v ∧
        g.speed = hypot g.u g.v ∧ (ctx.speedThreshold : ℝ) ≤ g.speed)
      (buildGlyphs ctx) :=
  buildGlyphsLoop_valid ctx _ _ (cellList ctx) 0

/-- `Number.EPSILON`. -/
def epsJS : ℚ := 1 / 2 ^ 52

/-- First `while` of `normalizeLon`: `while (value < -180) value += 360`. -/
def wrapUp (x : ℚ) : ℚ :=
  if h : x < -180 then wrapUp (x + 360) else x
termination_by (⌈(-180 - x) / 360⌉).toNat
decreasing_by
  have h2 : (0 : ℚ) < (-180 - x) / 360 := by
    have : (0 : ℚ) < -180 - x := by linarith
    positivity
  have h3 : 1 ≤ ⌈(-180 - x) / 360⌉ := Int.ceil_pos.mpr h2
  have h4 : ⌈(-180 - (x + 360)) / 360⌉ = ⌈(-180 - x) / 360⌉ - 1 := by
    rw [show (-180 - (x + 360)) / 360 = (-180 - x) / 360 - 1 by ring]
    exact Int.ceil_sub_one _
  omega

/-- Second `while` of `normalizeLon`: `while (value > 180) value -= 360`. -/
def wrapDown (x : ℚ) : ℚ :=
  if h : 180 < x then wrapDown (x - 360) else x
termination_by (⌈(x - 180) / 360⌉).toNat
decreasing_by
  have h2 : (0 : ℚ) < (x - 180) / 360 := by
    have : (0 : ℚ) < x - 180 := by linarith
    positivity
  have h3 : 1 ≤ ⌈(x - 180) / 360⌉ := Int.ceil_pos.mpr h2
  have h4 : ⌈(x - 360 - 180) / 360⌉ = ⌈(x - 180) / 360⌉ - 1 := by
    rw [show (x - 360 - 180) / 360 = (x - 180) / 360 - 1 by ring]
    exact Int.ceil_sub_one _
  omega

/-- `normalizeLon(lon)` from `utils/geoRegions.js`. -/
def normalizeLon (lon : ℚ) : ℚ :=
  wrapDown (wrapUp lon)

/-- `classifyZone(lat)` — `DEG.TROPICS = 23.5`, `DEG.MID = 55`. -/
def classifyZone (lat : ℚ) : String :=
  if |lat| ≤ 47 / 2 then ("Tropics")
  else if |lat| ≤ 55 then
    (if 0 ≤ lat then ("Northern mid-latitudes") else ("Southern mid-latitudes"))
  else (if 0 ≤ lat then ("Arctic air mass") else ("Antarctic air mass"))

/-- A GeoJSON geometry as `featureContains` distinguishes it; ring vertices
are `[lon, lat]` pairs. -/
inductive GeoGeometry where
  | polygon (coordinates : List (List (ℚ × ℚ)))
  | multiPolygon (coordinates : List (List (List (ℚ × ℚ))))
  | other

/-- One entry of `windRegions.json`'s `features` array (the data file is
loaded at module init; the embedding takes the list as a parameter). -/
structure GeoFeature where
  geometry : GeoGeometry
  name : Option String

/-- `pointInRing(lat, lon, ring)` — even-odd ray casting over the edges
`(ring[i], ring[j])`, `j` the predecessor index (wrapping to the end). -/
def pointInRing (lat lon : ℚ) (ring : List (ℚ × ℚ)) : Bool :=
  match ring with
  | [] => false
  | r0 :: rs =>
      ((r0 :: rs).zip ((r0 :: rs).getLastD r0 :: (r0 :: rs).dropLast)).foldl
        (fun inside e =>
          let xi := e.1.1
          let yi := e.1.2
          let xj := e.2.1
          let yj := e.2.2
          if (decide (yi > lat) ≠ decide (yj > lat)) ∧
              lon < (xj - xi) * (lat - yi) / (yj - yi + epsJS) + xi then
            !inside
          else inside)
        false

/-- `pointInPolygon` — `coordinates.some(ring => ...)`. -/
def pointInPolygon (lat lon : ℚ) (coordinates : List (List (ℚ × ℚ))) : Bool :=
  coordinates.any fun ring => pointInRing lat lon ring

/-- `pointInMultiPolygon` — `multipoly.some(polygon => ...)`. -/
def pointInMultiPolygon (lat lon : ℚ)
    (multipoly : List (List (List (ℚ × ℚ)))) : Bool :=
  multipoly.any fun polygon => pointInPolygon lat lon polygon

/-- `featureContains(feature, lat, lon)`. -/
def featureContains (feature : GeoFeature) (lat lon : ℚ) : Bool :=
  match feature.geometry with
  | GeoGeometry.polygon coords => pointInPolygon lat lon coords
  | GeoGeometry.multiPolygon coords => pointInMultiPolygon lat lon coords
  | GeoGeometry.other => false

/-- The record `describeRegions` returns. -/
structure Region where
  hemisphere : String
  zone : String
  sector : String
  landmarks : List String
  narrative : String

/-- `describeRegions(lat, lon)` over the loaded feature list. -/
def describeRegions (features : List GeoFeature) (lat lon : ℚ) : Region :=
  let wrappedLon := normalizeLon lon
  let matchNames := features.filterMap fun f =>
    if featureContains f lat wrappedLon then
      some (f.name.getD ("Unknown region"))
    else none
  let hemisphere := if 0 ≤ lat then ("Northern Hemisphere") else ("Southern Hemisphere")
  let longitudinalSector :=
    if wrappedLon < -30 then ("Americas")
    else if wrappedLon < 60 then ("Atlantic/Europe/Africa")
    else if wrappedLon < 150 then ("Indian Ocean/Asia")
    else ("Pacific Basin")
  let zone := classifyZone lat
  -- `matches.length ? matches : []` — the same list either way.
  let landmarks := matchNames
  let narrativeParts :=
    ["Currently in the " ++ hemisphere,
     "tracking through the " ++ zone,
     "with flow linked to the " ++ longitudinalSector ++ "."] ++
      (if landmarks ≠ [] then
        ["Nearby highlights: " ++ (", ").intercalate landmarks ++ "."]
      else [])
  { hemisphere := hemisphere
    zone := zone
    sector := longitudinalSector
    landmarks := landmarks
    narrative := (" ").intercalate narrativeParts }

/-- One hex digit. -/
def hexDigit (n : ℕ) : Char :=
  ("0123456789abcdef").toList.getD n ('0')

/-- Two lowercase hex digits of a byte. -/
def hexByte (n : ℕ) : String :=
  String.mk [hexDigit (n / 16 % 16), hexDigit (n % 16)]

/-- Stand-in for THREE's `Color.getHexString()` (library code, not part of
this repository): the six hex digits of the byte-scaled channels.  The
claims only require the emitted payload to carry the selected color. -/
noncomputable def colorHexString (c : Color) : String :=
  hexByte (⌊c.r * 255⌋).toNat ++ hexByte (⌊c.g * 255⌋).toNat ++ hexByte (⌊c.b * 255⌋).toNat

/-- `passportState.base`; `lat`/`lon` are absent until the first
`updatePassportLocation` call sets them. -/
structure PassportBase where
  speed : ℝ
  normalizedSpeed : ℝ
  level : Option String
  color : String
  lat : Option ℚ
  lon : Option ℚ

/-- `passportState` — `visited` doubles as the insertion-ordered `visitedSet`. -/
structure PassportState where
  base : PassportBase
  visited : List String
  lastRegion : Option Region

/-- The `detail` payload of `emitPassportDetail`; the region fields are
`undefined` (`none`) when `lastRegion` is null (`region = lastRegion || {}`). -/
structure PassportDetail where
  lat : Option ℚ
  lon : Option ℚ
  speed : ℝ
  normalizedSpeed : ℝ
  level : Option String
  color : String
  hemisphere : Option String
  zone : Option String
  sector : Option String
  narrative : Option String
  landmarks : List String

/-- The `for (const name of region.landmarks)` loop: append unseen names,
flagging `changed` on every addition. -/
def addNewLandmarks (visited : List String) (names : List String)
    (changed : Bool) : List String × Bool :=
  names.foldl
    (fun acc name => if name ∈ acc.1 then acc else (acc.1 ++ [name], true))
    (visited, changed)

/-- `emitPassportDetail()` given a live state. -/
def emitDetailOf (ps : PassportState) : PassportDetail :=
  { lat := ps.base.lat
    lon := ps.base.lon
    speed := ps.base.speed
    normalizedSpeed := ps.base.normalizedSpeed
    level := ps.base.level
    color := ps.base.color
    hemisphere := ps.lastRegion.map Region.hemisphere
    zone := ps.lastRegion.map Region.zone
    sector := ps.lastRegion.map Region.sector
    narrative := ps.lastRegion.map Region.narrative
    landmarks := ps.visited }

/-- Resolving an identifier: an absent binding is a thrown
`ReferenceError` (the repository file is a strict-mode ES module). -/
def readVar {α : Type} (v : Option α) (name : String) : Except String α :=
  match v with
  | some x => Except.ok x
  | none => Except.error ("ReferenceError: " ++ name ++ " is not defined")

/-- Assigning to an identifier: in strict mode an assignment to an
undeclared name also throws `ReferenceError`.  `slot` is `none` when no
declaration exists and `some v` when a declaration currently holding `v`
does. -/
def writeVar {α : Type} (slot : Option α) (name : String) (value : α) :
    Except String (Option α) :=
  match slot with
  | some _ => Except.ok (some value)
  | none => Except.error ("ReferenceError: " ++ name ++ " is not defined")

/-- The module's `passportState` variable slot: interactiveWind.js assigns
and reads `passportState` but never declares it (`let`/`var`/`const`), so
the slot of the module as shipped is `none` (undeclared). -/
def modulePassportSlot : Option (Option PassportState) := none

/-- `updatePassportLocation(lat, lon, { forceEmit })`: reads
`passportState` (`if (!passportState) return;`), then updates the base
location, resolves the region, collects unseen landmarks, and emits one
detail event when anything changed.  Returns the new slot and the
`dispatchPassportEvent` payloads, in order. -/
def updatePassportLocation (features : List GeoFeature)
    (slot : Option (Option PassportState)) (lat lon : ℚ) (forceEmit : Bool) :
    Except String (Option (Option PassportState) × List (Option PassportDetail)) := do
  let st ← readVar slot ("passportState")
  match st with
  | none => Except.ok (slot, [])
  | some ps =>
      let region := describeRegions features lat lon
      let base' := { ps.base with lat := some lat, lon := some lon }
      let step := addNewLandmarks ps.visited region.landmarks forceEmit
      let ps' : PassportState :=
        { base := base', visited := step.1, lastRegion := some region }
      Except.ok (some (some ps'), if step.2 then [some (emitDetailOf ps')] else [])

/-- `startPassportTracking(windData)` with the module-level
`metadata.level`: builds the state object, assigns it to `passportState`
(throwing when the variable is undeclared), then forces an emit via
`updatePassportLocation`.  `windData.color` is always a proper color here,
so the `'#ffffff'` fallback of the source cannot fire. -/
noncomputable def startPassportTracking (features : List GeoFeature)
    (wd : GlyphPoint) (level : Option String)
    (slot : Option (Option PassportState)) :
    Except String (Option (Option PassportState) × List (Option PassportDetail)) := do
  let ps : PassportState :=
    { base :=
        { speed := wd.speed
          normalizedSpeed := wd.normalizedSpeed
          level := level
          color := "#" ++ colorHexString wd.color
          lat := none
          lon := none }
      visited := []
      lastRegion := none }
  let slot' ← writeVar slot ("passportState") (some ps)
  updatePassportLocation features slot' wd.lat wd.lon true

/-- `stopPassportTracking()`: `passportState = null` (throwing when the
variable is undeclared), then `dispatchPassportEvent(null)`. -/
def stopPassportTracking (slot : Option (Option PassportState)) :
    Except String (Option (Option PassportState) × List (Option PassportDetail)) := do
  let slot' ← writeVar slot ("passportState") none
  Except.ok (slot', [none])

/-- The passport-relevant slice of the hit branch of `onCanvasClick`:
`stopPassportTracking()` first, then (after rebuilding leaf/streamline)
`startPassportTracking(windData)`; events dispatched in order. -/
noncomputable def onClickHit (features : List GeoFeature) (wd : GlyphPoint)
    (level : Option String) (slot : Option (Option PassportState)) :
    Except String (Option (Option PassportState) × List (Option PassportDetail)) := do
  let s1 ← stopPassportTracking slot
  let s2 ← startPassportTracking features wd level s1.1
  Except.ok (s2.1, s1.2 ++ s2.2)

/-- The passport-relevant slice of the miss branch of `onCanvasClick`:
`hideWindInfo()` (which calls `stopPassportTracking()`) and then
`stopPassportTracking()` once more. -/
def onClickMiss (slot : Option (Option PassportState)) :
    Except String (Option (Option PassportState) × List (Option PassportDetail)) := do
  let s1 ← stopPassportTracking slot
  let s2 ← stopPassportTracking s1.1
  Except.ok (s2.1, s1.2 ++ s2.2)

lemma addNewLandmarks_changed (names : List String) :
    ∀ visited : List String, (addNewLandmarks visited names true).2 = true := by
  unfold addNewLandmarks
  induction names with
  | nil => intro visited; rfl
  | cons n rest ih =>
    intro visited
    by_cases hmem : n ∈ visited
    · simpa [List.foldl_cons, hmem] using ih visited
    · simpa [List.foldl_cons, hmem] using ih (visited ++ [n])

/-- C3 (code bug): in the module as shipped `passportState` is undeclared,
so both the pick path and the deselect path of `onCanvasClick` throw a
`ReferenceError` at their first `stopPassportTracking()` — no "current
location changed" payload and no cleared (null) payload is ever
dispatched. -/
theorem passport_click_throws (features : List GeoFeature) (wd : GlyphPoint)
    (level : Option String) :
    onClickHit features wd level modulePassportSlot =
        Except.error ("ReferenceError: passportState is not defined") ∧
      onClickMiss modulePassportSlot =
        Except.error ("ReferenceError: passportState is not defined") :=
  ⟨rfl, rfl⟩

/-- Had `passportState` been declared, the handler would behave as the
claim describes: a pick dispatches a payload carrying the picked lat, lon,
speed, normalizedSpeed, level, color and region descriptor, and a miss
dispatches only cleared (null) payloads — this is the intent the spec
records, supporting the code-bug classification. -/
theorem passport_click_intended (features : List GeoFeature) (wd : GlyphPoint)
    (level : Option String) (prior prior2 : Option PassportState) :
    (∃ st, onClickHit features wd level (some prior) =
      Except.ok (st,
        [none, some
          { lat := some wd.lat
            lon := some wd.lon
            speed := wd.speed
            normalizedSpeed := wd.normalizedSpeed
            level := level
            color := "#" ++ colorHexString wd.color
            hemisphere := some (describeRegions features wd.lat wd.lon).hemisphere
            zone := some (describeRegions features wd.lat wd.lon).zone
            sector := some (describeRegions features wd.lat wd.lon).sector
            narrative := some (describeRegions features wd.lat wd.lon).narrative
            landmarks :=
              (addNewLandmarks []
                (describeRegions features wd.lat wd.lon).landmarks true).1 }])) ∧
      onClickMiss (some prior2) = Except.ok (some none, [none, none]) := by
  constructor
  · refine ⟨some (some
      { base :=
          { speed := wd.speed
            normalizedSpeed := wd.normalizedSpeed
            level := level
            color := "#" ++ colorHexString wd.color
            lat := some wd.lat
            lon := some wd.lon }
        visited :=
          (addNewLandmarks []
            (describeRegions features wd.lat wd.lon).landmarks true).1
        lastRegion := some (describeRegions features wd.lat wd.lon) }), ?_⟩
    unfold onClickHit startPassportTracking updatePassportLocation
      stopPassportTracking writeVar readVar
    simp only [addNewLandmarks_changed, if_true]
    rfl
  · rfl

/-- The two curve queries `update` makes (`getPointAt`, `getTangentAt`) of
the THREE `CurvePath` held in `streamlineCurve`. -/
structure CurvePath where
  pointAt : ℝ → Vec3
  tangentAt : ℝ → Vec3

/-- The module-level variables `update(dt)` reads. -/
structure UpdateState where
  selectedLeaf : Bool
  leafWindData : Option GlyphPoint
  streamlineCurve : Option CurvePath
  streamlinePoints : List Vec3
  streamlinePathInfo : List (Vec3 × ℚ × ℚ)
  leafAnimTime : ℝ

/-- The `const` names declared inside the no-curve fallback block of
`update`; per JS block scoping they cease to exist at the block's end. -/
structure BranchScope where
  info1 : Option (Vec3 × ℚ × ℚ)
  info2 : Option (Vec3 × ℚ × ℚ)
  localT : Option ℝ

/-- JS truncated division remainder `a % b`. -/
noncomputable def jsMod (a b : ℝ) : ℝ :=
  a - b * ((if 0 ≤ a / b then ⌊a / b⌋ else ⌈a / b⌉) : ℤ)

/-- The animation branch of `update(dt)`: advance the clock, take the
curve position/tangent (or the fallback interpolation over
`streamlinePoints`), then report the current location from `info1`,
`info2`, `localT`.  Those three are `const`s of the fallback *block*, so at
the report statement — which sits after the whole `if/else` — the function
scope holds no such bindings, whichever branch ran; the embedding makes the
failing lookup explicit.  (`lerpWrappedLon` on the following line is not
defined anywhere in the repository either.)  The returned pair is the
`(currLat, currLon)` handed to `updatePassportLocation`. -/
noncomputable def updateTick (animDuration dt : ℝ) (st : UpdateState) :
    Except String (Option (ℝ × ℝ)) :=
  if st.selectedLeaf ∧ st.leafWindData.isSome ∧
      (st.streamlineCurve.isSome ∨ 1 < st.streamlinePoints.length) then
    let leafAnimTime := st.leafAnimTime + dt
    let t := jsMod leafAnimTime animDuration / animDuration
    let newPosTangent : Vec3 × Vec3 :=
      match st.streamlineCurve with
      | some curve => (curve.pointAt t, curve.tangentAt t)
      | none =>
          let pathLength : ℕ := st.streamlinePoints.length - 1
          let pathPosition := t * (pathLength : ℝ)
          let index : ℤ := ⌊pathPosition⌋
          let localT := pathPosition - (index : ℝ)
          let p1 := st.streamlinePoints.getD (min index (pathLength : ℤ)).toNat ⟨0, 0, 0⟩
          let p2 := st.streamlinePoints.getD (min (index + 1) (pathLength : ℤ)).toNat ⟨0, 0, 0⟩
          (Vec3.lerp p1 p2 localT, (p2.sub p1).normalize)
    let _newPos := newPosTangent.1
    let _tangent := newPosTangent.2
    -- Function-level scope after the `if/else`: `newPos`/`tangent` were
    -- `let`s of the function body, but `info1`/`info2`/`localT` were not.
    let functionScope : BranchScope := ⟨none, none, none⟩
    match readVar functionScope.info1 ("info1") with
    | Except.error e => Except.error e
    | Except.ok i1 =>
        match readVar functionScope.info2 ("info2"),
            readVar functionScope.localT ("localT") with
        | Except.ok i2, Except.ok lT =>
            Except.ok (some (lerp (i1.2.1 : ℝ) (i2.2.1 : ℝ) lT,
              lerp (i1.2.2 : ℝ) (i2.2.2 : ℝ) lT))
        | _, _ => Except.error ("ReferenceError: info2 or localT is not defined")
  else
    Except.ok none

/-- C2 (code bug): whenever a leaf is selected and a streamline curve
exists, the per-frame `update(dt)` does *not* complete — it throws a
`ReferenceError`, because the location-report statement reads `info1`
(and `info2`, `localT`) outside the block that declared them — so no
current location is ever reported from the path-info samples. -/
theorem updateTick_throws (animDuration dt : ℝ) (st : UpdateState)
    (h1 : st.selectedLeaf = true) (h2 : st.leafWindData.isSome)
    (h3 : st.streamlineCurve.isSome) :
    updateTick animDuration dt st =
      Except.error ("ReferenceError: info1 is not defined") := by
  unfold updateTick
  rw [if_pos ⟨h1, h2, Or.inl h3⟩]
  rfl

/-- A concrete selected state with a live streamline curve. -/
noncomputable def sampleUpdateState : UpdateState :=
  { selectedLeaf := true
    leafWindData := some ⟨⟨1, 0, 0⟩, 5, 1 / 2, ⟨1, 0, 0⟩, 0, 0, 3, 4, ⟨0, 0, 0⟩⟩
    streamlineCurve := some ⟨fun _ => ⟨1, 0, 0⟩, fun _ => ⟨1, 0, 0⟩⟩
    streamlinePoints := []
    streamlinePathInfo := []
    leafAnimTime := 0 }

/-- Witness for C2 at the concrete failing input `dt = 0.016`. -/
theorem updateTick_throws_witness :
    sampleUpdateState.selectedLeaf = true ∧
      sampleUpdateState.leafWindData.isSome = true ∧
      sampleUpdateState.streamlineCurve.isSome = true ∧
      updateTick 3 (16 / 1000) sampleUpdateState =
        Except.error ("ReferenceError: info1 is not defined") :=
  ⟨rfl, rfl, rfl, updateTick_throws 3 (16 / 1000) sampleUpdateState rfl rfl rfl⟩
